import Mathlib

/-!
Shallow embedding of the knex-bun-sqlite adapter (`index.js`): the value
normalizer `normalizeParams`, the `Database` connection facade and the
`Statement` wrapper, with the synchronous engine (`bun:sqlite`) abstracted
as explicit outcome arguments.  Callback invocations, thrown exceptions and
statement finalization are recorded explicitly, so the adapter's
callback-contract and lifecycle properties can be stated and proved.
-/

/-- Engine-level error values (exceptions raised by `bun:sqlite`); their
content is opaque at the adapter layer, so they are modelled as messages. -/
abbrev Err := String

/-- Engine-returned records are opaque at the adapter layer (the adapter
passes rows through unmodified), so rows are modelled as atoms. -/
abbrev Row := Nat

/-- JavaScript values as seen by the adapter's parameter handling.
`date` carries the instant's `getTime()` value in milliseconds, `buffer`
the bytes of a Node `Buffer`, `uint8array` a typed byte array, `bigint` a
JS BigInt, and `obj` any other object value — one that matches none of the
normalizer's `instanceof Date`, `=== undefined` and `Buffer.isBuffer`
tests and therefore reaches the final pass-through `return param`. -/
inductive JSValue where
  | str (s : String)
  | num (n : Int)
  | bool (b : Bool)
  | null
  | undef
  | bigint (n : Int)
  | date (epochMs : Int)
  | buffer (bytes : List Nat)
  | uint8array (bytes : List Nat)
  | obj (id : Nat)
  deriving DecidableEq

/-- True exactly on a `Date` value (a date-like value in the spec's words). -/
def JSValue.isDateLike : JSValue → Bool
  | .date _ => true
  | _ => false

/-- True exactly on the `undefined` value. -/
def JSValue.isUndefined : JSValue → Bool
  | .undef => true
  | _ => false

/-- Pads a decimal string on the left with zero digits up to width `w`,
as `String.prototype.padStart` would. -/
def padTo (w : Nat) (s : String) : String :=
  String.mk (List.replicate (w - s.length) '0') ++ s

/-- Decimal rendering of a component of an ISO date-time, zero-padded to
width `w`. -/
def pad (w : Nat) (n : Nat) : String :=
  padTo w (toString n)

/-- Proleptic-Gregorian civil date `(year, month, day)` of a day count
relative to 1970-01-01 (the civil-from-days conversion used to evaluate
`Date.prototype.toISOString`, which renders the UTC calendar date of the
epoch-millisecond value). -/
def civilFromDays (z0 : Int) : Int × Int × Int :=
  let z := z0 + 719468
  let era : Int := z.fdiv 146097
  let doe : Int := z - era * 146097
  let yoe : Int := (doe - doe.fdiv 1460 + doe.fdiv 36524 - doe.fdiv 146096).fdiv 365
  let y : Int := yoe + era * 400
  let doy : Int := doe - (365 * yoe + yoe.fdiv 4 - yoe.fdiv 100)
  let mp : Int := (5 * doy + 2).fdiv 153
  let d : Int := doy - (153 * mp + 2).fdiv 5 + 1
  let m : Int := mp + (if mp < 10 then 3 else -9)
  (y + (if m ≤ 2 then 1 else 0), m, d)

/-- Embeds the `Date` branch of the normalizer:
`param.toISOString().replace('T', ' ').substring(0, 23)` evaluated on the
instant whose `getTime()` is `epochMs`.  For years 0–9999 `toISOString`
yields `YYYY-MM-DDTHH:MM:SS.sssZ`; replacing the separator and keeping the
first 23 characters gives `YYYY-MM-DD HH:MM:SS.sss`. -/
def dateToSQLiteString (epochMs : Int) : String :=
  let day : Int := epochMs.fdiv 86400000
  let msOfDay : Nat := (epochMs - day * 86400000).toNat
  let ymd := civilFromDays day
  let hh := msOfDay / 3600000
  let mi := msOfDay % 3600000 / 60000
  let ss := msOfDay % 60000 / 1000
  let ms := msOfDay % 1000
  pad 4 ymd.1.toNat ++ "-" ++ pad 2 ymd.2.1.toNat ++ "-" ++ pad 2 ymd.2.2.toNat ++
    " " ++ pad 2 hh ++ ":" ++ pad 2 mi ++ ":" ++ pad 2 ss ++ "." ++ pad 3 ms

/-- Calling-convention input of `normalizeParams`: the JS argument may be
absent (`undefined`), a bare non-array value, or an array. -/
inductive ParamsInput where
  | undef
  | scalar (v : JSValue)
  | array (vs : List JSValue)
  deriving DecidableEq

/-- Embeds the prologue of `normalizeParams`:
`if (!Array.isArray(params)) params = params === undefined ? [] : [params]`. -/
def ParamsInput.toArray : ParamsInput → List JSValue
  | .undef => []
  | .scalar .undef => []
  | .scalar v => [v]
  | .array vs => vs

/-- Embeds the body of the `params.map(...)` arrow inside `normalizeParams`:
a `Date` becomes the SQLite datetime text
`param.toISOString().replace('T', ' ').substring(0, 23)`, `undefined`
becomes `null`, a `Buffer` becomes a `Uint8Array` of the same bytes, and
anything else is returned unchanged. -/
def normalizeOne : JSValue → JSValue
  | .date t => .str (dateToSQLiteString t)
  | .undef => .null
  | .buffer bs => .uint8array bs
  | v => v

/-- Embeds `normalizeParams(params)` from `index.js`: coerce the argument
to an array, then map the per-element conversion over it. -/
def normalizeParams (params : ParamsInput) : List JSValue :=
  params.toArray.map normalizeOne

/-- Follows the spec's words (the data-model invariant behind claim C8):
after normalization every element is one of text, number, boolean, null,
large-integer, byte array.  This definition is written from the spec, to be
compared with what `normalizeParams` actually produces. -/
def specSafeKind : JSValue → Bool
  | .str _ => true
  | .num _ => true
  | .bool _ => true
  | .null => true
  | .bigint _ => true
  | .uint8array _ => true
  | _ => false

/-- Result metadata the engine reports for a write (the return value of
`stmt.run` in `bun:sqlite`): the connection's last-inserted rowid and the
affected-row count. -/
structure EngineResult where
  lastInsertRowid : Int
  changes : Nat
  deriving DecidableEq

/-- Run-result context bound as the receiver of a run completion routine
(`this.lastID` and `this.changes`). -/
structure RunContext where
  lastID : Option Int
  changes : Nat
  deriving DecidableEq

/-- Embeds the context construction shared verbatim by `Database.run` and
`Statement.run`:
`lastID: result.lastInsertRowid ? Number(result.lastInsertRowid) : undefined`
— by JS truthiness the rowid is kept exactly when nonzero, and `Number` on
an integral rowid is the identity — and `changes: result.changes || 0`. -/
def runContext (r : EngineResult) : RunContext :=
  { lastID := if r.lastInsertRowid = 0 then none else some r.lastInsertRowid,
    changes := if r.changes = 0 then 0 else r.changes }

/-- One invocation of a run completion routine: `callback.call(context, null)`
on success, `callback.call(this, err)` on failure. -/
inductive RunCall where
  | success (ctx : RunContext)
  | failure (e : Err)
  deriving DecidableEq

/-- Observable outcome of a one-shot `Database`-level call: whether the
internally prepared statement was finalized, the completion-routine
invocation made (at most one), the value returned to the caller, and the
exception thrown past the call, if any. -/
structure OneShotOutcome (β ρ : Type) where
  finalized : Bool
  callbackCall : Option β
  returned : Option ρ
  thrown : Option Err
  deriving DecidableEq

/-- Embeds `Database.run(sql, params, callback)`: inside `try`, normalize
the parameters, `this.db.prepare(sql)`, `stmt.run(...normalizedParams)`,
`stmt.finalize()`, then invoke the callback with the run context and a null
error; the `catch` block routes an engine exception through the callback
when one exists and otherwise re-throws.  The engine is abstracted by the
outcome of the prepare step and by `stmt.run` as a function of the
normalized parameters. -/
def Database.run (params : ParamsInput) (prep : Except Err Unit)
    (ex : List JSValue → Except Err EngineResult) (hasCallback : Bool) :
    OneShotOutcome RunCall Unit :=
  match prep with
  | .error e =>
    { finalized := false,
      callbackCall := if hasCallback then some (.failure e) else none,
      returned := none,
      thrown := if hasCallback then none else some e }
  | .ok _ =>
    match ex (normalizeParams params) with
    | .error e =>
      { finalized := false,
        callbackCall := if hasCallback then some (.failure e) else none,
        returned := none,
        thrown := if hasCallback then none else some e }
    | .ok r =>
      { finalized := true,
        callbackCall := if hasCallback then some (.success (runContext r)) else none,
        returned := none,
        thrown := none }

/-- Embeds `Database.get(sql, params, callback)`: prepare, `stmt.get`,
finalize, deliver `(null, result)` through the callback and return the row;
the `catch` block routes the error through the callback or re-throws. -/
def Database.get (params : ParamsInput) (prep : Except Err Unit)
    (ex : List JSValue → Except Err (Option Row)) (hasCallback : Bool) :
    OneShotOutcome (Except Err (Option Row)) (Option Row) :=
  match prep with
  | .error e =>
    { finalized := false,
      callbackCall := if hasCallback then some (.error e) else none,
      returned := none,
      thrown := if hasCallback then none else some e }
  | .ok _ =>
    match ex (normalizeParams params) with
    | .error e =>
      { finalized := false,
        callbackCall := if hasCallback then some (.error e) else none,
        returned := none,
        thrown := if hasCallback then none else some e }
    | .ok res =>
      { finalized := true,
        callbackCall := if hasCallback then some (.ok res) else none,
        returned := some res,
        thrown := none }

/-- Embeds `Database.all(sql, params, callback)`: prepare, `stmt.all`,
finalize, deliver `(null, results)` and return the row list; the `catch`
block routes the error through the callback or re-throws. -/
def Database.all (params : ParamsInput) (prep : Except Err Unit)
    (ex : List JSValue → Except Err (List Row)) (hasCallback : Bool) :
    OneShotOutcome (Except Err (List Row)) (List Row) :=
  match prep with
  | .error e =>
    { finalized := false,
      callbackCall := if hasCallback then some (.error e) else none,
      returned := none,
      thrown := if hasCallback then none else some e }
  | .ok _ =>
    match ex (normalizeParams params) with
    | .error e =>
      { finalized := false,
        callbackCall := if hasCallback then some (.error e) else none,
        returned := none,
        thrown := if hasCallback then none else some e }
    | .ok rs =>
      { finalized := true,
        callbackCall := if hasCallback then some (.ok rs) else none,
        returned := some rs,
        thrown := none }

/-- Trace of an `each` call: the per-row completion invocations in order
(`Except.ok row` for `rowCallback.call(this, null, row)` and
`Except.error e` for the catch path), the final-completion invocations,
whether the one-shot statement was finalized, and the exception thrown past
the call, if any. -/
structure EachOutcome where
  finalized : Bool
  rowCalls : List (Except Err Row)
  completeCalls : List (Except Err Nat)
  thrown : Option Err

/-- Embeds `Database.each(sql, params, rowCallback, completeCallback)`:
prepare, collect `stmt.all(...)` eagerly, finalize, invoke the row callback
once per result row while counting, then the complete callback with the
count; the `catch` block invokes whichever callbacks exist with the error
and never re-throws. -/
def Database.each (params : ParamsInput) (prep : Except Err Unit)
    (ex : List JSValue → Except Err (List Row))
    (hasRowCb hasCompleteCb : Bool) : EachOutcome :=
  match prep with
  | .error e =>
    { finalized := false,
      rowCalls := if hasRowCb then [.error e] else [],
      completeCalls := if hasCompleteCb then [.error e] else [],
      thrown := none }
  | .ok _ =>
    match ex (normalizeParams params) with
    | .error e =>
      { finalized := false,
        rowCalls := if hasRowCb then [.error e] else [],
        completeCalls := if hasCompleteCb then [.error e] else [],
        thrown := none }
    | .ok rs =>
      { finalized := true,
        rowCalls := if hasRowCb then rs.map .ok else [],
        completeCalls := if hasCompleteCb then [.ok rs.length] else [],
        thrown := none }

/-- Outcome of a call whose completion routine takes only an error-or-null
argument (`exec`, `close`, `Statement.finalize`): `some none` records
`callback(null)`, `some (some e)` records `callback(err)`. -/
structure SimpleOutcome where
  callbackCall : Option (Option Err)
  thrown : Option Err
  deriving DecidableEq

/-- Embeds `Database.exec(sql, callback)`: `this.db.run(sql)` directly (no
statement object, no parameter binding); the `catch` block routes the error
through the callback when one exists and otherwise re-throws. -/
def Database.exec (runOutcome : Except Err Unit) (hasCallback : Bool) :
    SimpleOutcome :=
  match runOutcome with
  | .ok _ =>
    { callbackCall := if hasCallback then some none else none, thrown := none }
  | .error e =>
    { callbackCall := if hasCallback then some (some e) else none,
      thrown := if hasCallback then none else some e }

/-- Embeds `Database.close(callback)`: `this.db.close()`, then
`callback(null)`; the `catch` block invokes `callback(err)` when a callback
exists and otherwise does nothing — there is no re-throw branch. -/
def Database.close (c : Except Err Unit) (hasCallback : Bool) : SimpleOutcome :=
  match c with
  | .ok _ =>
    { callbackCall := if hasCallback then some none else none, thrown := none }
  | .error e =>
    { callbackCall := if hasCallback then some (some e) else none, thrown := none }

/-- Mutable state of a `Statement` wrapper relevant to parameter handling:
`this.boundParams`, which is unset until the first `bind` call. -/
structure StatementState where
  boundParams : Option (List JSValue)
  deriving DecidableEq

/-- Embeds `Statement.bind(...params)`: `this.boundParams = params` (the
rest parameter always collects an array) and `return this`. -/
def Statement.bind (st : StatementState) (params : List JSValue) :
    StatementState :=
  { boundParams := some params }

/-- Embeds the parameter resolution shared by `Statement.run/get/all/each`:
`if (this.boundParams && params.length === 0) params = this.boundParams`.
A bound array, even an empty one, is truthy in JS, so any bound list is
used whenever the explicit argument list is empty. -/
def resolveParams (st : StatementState) (args : List JSValue) :
    List JSValue :=
  match st.boundParams with
  | some bound => if args.length = 0 then bound else args
  | none => args

/-- Observable outcome of `Statement.run`: the statement state after the
call, the normalized parameter list handed to the engine, the completion
invocation and the exception thrown past the call. -/
structure StmtRunOutcome where
  state : StatementState
  engineArgs : List JSValue
  callbackCall : Option RunCall
  thrown : Option Err
  deriving DecidableEq

/-- Embeds `Statement.run(...args)`: pop a trailing callback, resolve the
effective parameters against `boundParams`, normalize, execute
`this.stmt.run(...normalizedParams)`, then invoke the callback with the run
context; the `catch` block routes the error through the callback or
re-throws.  `boundParams` is never written. -/
def Statement.run (st : StatementState) (args : List JSValue)
    (ex : List JSValue → Except Err EngineResult) (hasCallback : Bool) :
    StmtRunOutcome :=
  let params := resolveParams st args
  let normalizedParams := normalizeParams (.array params)
  match ex normalizedParams with
  | .ok r =>
    { state := st, engineArgs := normalizedParams,
      callbackCall := if hasCallback then some (.success (runContext r)) else none,
      thrown := none }
  | .error e =>
    { state := st, engineArgs := normalizedParams,
      callbackCall := if hasCallback then some (.failure e) else none,
      thrown := if hasCallback then none else some e }

/-- Observable outcome of `Statement.get`. -/
structure StmtGetOutcome where
  state : StatementState
  engineArgs : List JSValue
  callbackCall : Option (Except Err (Option Row))
  returned : Option (Option Row)
  thrown : Option Err

/-- Embeds `Statement.get(...args)`: same parameter resolution and
normalization as `Statement.run`, executing `this.stmt.get` and returning
the retrieved record as well as delivering it through the callback. -/
def Statement.get (st : StatementState) (args : List JSValue)
    (ex : List JSValue → Except Err (Option Row)) (hasCallback : Bool) :
    StmtGetOutcome :=
  let params := resolveParams st args
  let normalizedParams := normalizeParams (.array params)
  match ex normalizedParams with
  | .ok res =>
    { state := st, engineArgs := normalizedParams,
      callbackCall := if hasCallback then some (.ok res) else none,
      returned := some res, thrown := none }
  | .error e =>
    { state := st, engineArgs := normalizedParams,
      callbackCall := if hasCallback then some (.error e) else none,
      returned := none,
      thrown := if hasCallback then none else some e }

/-- Observable outcome of `Statement.all`. -/
structure StmtAllOutcome where
  state : StatementState
  engineArgs : List JSValue
  callbackCall : Option (Except Err (List Row))
  returned : Option (List Row)
  thrown : Option Err

/-- Embeds `Statement.all(...args)`: same parameter resolution and
normalization, executing `this.stmt.all` and returning the full ordered
result list as well as delivering it through the callback. -/
def Statement.all (st : StatementState) (args : List JSValue)
    (ex : List JSValue → Except Err (List Row)) (hasCallback : Bool) :
    StmtAllOutcome :=
  let params := resolveParams st args
  let normalizedParams := normalizeParams (.array params)
  match ex normalizedParams with
  | .ok rs =>
    { state := st, engineArgs := normalizedParams,
      callbackCall := if hasCallback then some (.ok rs) else none,
      returned := some rs, thrown := none }
  | .error e =>
    { state := st, engineArgs := normalizedParams,
      callbackCall := if hasCallback then some (.error e) else none,
      returned := none,
      thrown := if hasCallback then none else some e }

/-- Observable outcome of `Statement.each`. -/
structure StmtEachOutcome where
  state : StatementState
  engineArgs : List JSValue
  rowCalls : List (Except Err Row)
  completeCalls : List (Except Err Nat)
  thrown : Option Err

/-- Embeds `Statement.each(...args)`: classify the arguments into
parameters and up to two callbacks, resolve against `boundParams`,
normalize, collect `this.stmt.all(...)` eagerly, invoke the row callback
once per row while counting, then the complete callback with the count; the
`catch` block invokes whichever callbacks exist with the error and never
re-throws. -/
def Statement.each (st : StatementState) (args : List JSValue)
    (ex : List JSValue → Except Err (List Row))
    (hasRowCb hasCompleteCb : Bool) : StmtEachOutcome :=
  let params := resolveParams st args
  let normalizedParams := normalizeParams (.array params)
  match ex normalizedParams with
  | .ok rs =>
    { state := st, engineArgs := normalizedParams,
      rowCalls := if hasRowCb then rs.map .ok else [],
      completeCalls := if hasCompleteCb then [.ok rs.length] else [],
      thrown := none }
  | .error e =>
    { state := st, engineArgs := normalizedParams,
      rowCalls := if hasRowCb then [.error e] else [],
      completeCalls := if hasCompleteCb then [.error e] else [],
      thrown := none }

/-- Embeds `Statement.finalize(callback)`: `this.stmt.finalize()`, then
`callback.call(this, null)`; the `catch` block invokes the callback with
the error when one exists and otherwise does nothing — no re-throw. -/
def Statement.finalize (outcome : Except Err Unit) (hasCallback : Bool) :
    SimpleOutcome :=
  match outcome with
  | .ok _ =>
    { callbackCall := if hasCallback then some none else none, thrown := none }
  | .error e =>
    { callbackCall := if hasCallback then some (some e) else none, thrown := none }

/-- Outcome of `Database.prepare`: the returned `Statement` wrapper's state
(absent when the engine-level prepare threw), the completion invocation and
the exception thrown past the call. -/
structure PrepareOutcome where
  stmt : Option StatementState
  callbackCall : Option (Option Err)
  thrown : Option Err
  deriving DecidableEq

/-- Embeds `Database.prepare(sql, params, callback)`: after the trailing
callback shuffle the supplied `params` are never consulted again — the code
constructs `new Statement(this.db.prepare(sql), this)`, whose
`boundParams` is unset, and returns it, invoking `callback.call(stmt, null)`
on success; the `catch` block routes the error through the callback or
re-throws. -/
def Database.prepare (prep : Except Err Unit) (params : Option (List JSValue))
    (hasCallback : Bool) : PrepareOutcome :=
  match prep with
  | .ok _ =>
    { stmt := some { boundParams := none },
      callbackCall := if hasCallback then some none else none,
      thrown := none }
  | .error e =>
    { stmt := none,
      callbackCall := if hasCallback then some (some e) else none,
      thrown := if hasCallback then none else some e }

/-- One completion-routine invocation recorded by the `Database`
constructor together with its scheduling channel: `deferred := true` when
the invocation was queued with `process.nextTick`, `false` if it were made
re-entrantly within the constructor call. -/
structure ScheduledCall where
  deferred : Bool
  arg : Option Err
  deriving DecidableEq

/-- Observable outcome of constructing a `Database`. -/
structure ConstructorOutcome where
  opened : Bool
  calls : List ScheduledCall
  thrown : Option Err
  deriving DecidableEq

/-- Embeds the `Database` constructor: `new BunDatabase(filename)` inside
`try`; on success the callback, when supplied, is queued with
`process.nextTick(() => callback.call(this, null))`; on failure the
callback, when supplied, is queued with
`process.nextTick(() => callback.call(this, err))`, and with no callback
the exception is re-thrown synchronously. -/
def Database.constructor (openResult : Except Err Unit) (hasCallback : Bool) :
    ConstructorOutcome :=
  match openResult with
  | .ok _ =>
    { opened := true,
      calls := if hasCallback then [{ deferred := true, arg := none }] else [],
      thrown := none }
  | .error e =>
    if hasCallback then
      { opened := false,
        calls := [{ deferred := true, arg := some e }],
        thrown := none }
    else
      { opened := false, calls := [], thrown := some e }

/-- Helper: the per-element conversion of `normalizeParams` never outputs a
date-like or undefined value. -/
theorem normalizeOne_safe (v : JSValue) :
    ((normalizeOne v).isDateLike || (normalizeOne v).isUndefined) = false := by
  cases v <;> rfl

/-- C1: evaluation of the code at the spec's own scenario date.  The spec
claims the normalized element for a `Date` is the exact millisecond-epoch
integer `d.getTime()`; the code instead produces the SQLite datetime text,
so for the date whose `getTime()` is 1705314600000 (the instant
2024-01-15T10:30:00.000Z) the normalized element is the string
`2024-01-15 10:30:00.000` and not the number 1705314600000. -/
theorem C1_normalizeParams_date_yields_text :
    normalizeParams (.array [JSValue.date 1705314600000]) =
      [JSValue.str "2024-01-15 10:30:00.000"] ∧
    (JSValue.str "2024-01-15 10:30:00.000" == JSValue.num 1705314600000) = false :=
  ⟨rfl, rfl⟩

/-- C8 counterexample: an input element that matches none of the
Date/undefined/Buffer tests — here a plain object value — passes through
`normalizeParams` unchanged, and the resulting element is none of the
kinds the claim permits (text, number, boolean, null, large-integer, byte
array). -/
theorem C8_counterexample :
    normalizeParams (.array [JSValue.obj 0]) = [JSValue.obj 0] ∧
    specSafeKind (JSValue.obj 0) = false :=
  ⟨rfl, rfl⟩

/-- C8 (amended): `normalizeParams` always yields an ordered sequence, with
one output element per input element; no date-like and no undefined value
ever appears in the output; an undefined input element maps to null at its
position; a missing argument yields the empty sequence and a bare scalar a
one-element sequence; a `Date` maps to datetime text and a `Buffer` to a
byte array — but an element of any other object kind passes through
unchanged rather than being forced into the engine-safe kinds. -/
theorem C8_normalizeParams_output_shape (p : ParamsInput)
    (vs ws : List JSValue) (t : Int) (bs : List Nat) :
    (normalizeParams p).length = p.toArray.length ∧
    (normalizeParams p).all (fun w => !(w.isDateLike || w.isUndefined)) = true ∧
    normalizeParams (.array (vs ++ JSValue.undef :: ws)) =
      normalizeParams (.array vs) ++ JSValue.null :: normalizeParams (.array ws) ∧
    normalizeParams .undef = [] ∧
    normalizeParams (.scalar (JSValue.num 5)) = [JSValue.num 5] ∧
    normalizeOne (JSValue.date t) = JSValue.str (dateToSQLiteString t) ∧
    normalizeOne (JSValue.buffer bs) = JSValue.uint8array bs := by
  refine ⟨by simp [normalizeParams], ?_, ?_, rfl, rfl, rfl, rfl⟩
  · rw [normalizeParams, List.all_map, List.all_eq_true]
    intro x _
    simp [Function.comp, normalizeOne_safe x]
  · simp [normalizeParams, ParamsInput.toArray, normalizeOne]

/-- C3: the run-result context delivered to a run completion routine, by
both `Database.run` and `Statement.run`, carries `changes` equal to the
engine-reported affected-row count (defaulting to zero) and `lastID` equal
to the numeric coercion of the engine's last-inserted rowid, absent exactly
when that rowid is zero — the engine's report for a statement that inserted
nothing; in particular an UPDATE matching no rows (rowid 0, changes 0)
yields changes 0 and an absent lastID. -/
theorem C3_run_context (p : ParamsInput) (st : StatementState)
    (args : List JSValue) (r : EngineResult) :
    (Database.run p (Except.ok ()) (fun _ => Except.ok r) true).callbackCall =
      some (RunCall.success (runContext r)) ∧
    (Statement.run st args (fun _ => Except.ok r) true).callbackCall =
      some (RunCall.success (runContext r)) ∧
    (runContext r).changes = r.changes ∧
    ((runContext r).lastID = none ↔ r.lastInsertRowid = 0) ∧
    ((runContext r).lastID = some r.lastInsertRowid ↔ r.lastInsertRowid ≠ 0) ∧
    runContext { lastInsertRowid := 0, changes := 0 } = { lastID := none, changes := 0 } := by
  refine ⟨rfl, rfl, ?_, ?_, ?_, by simp [runContext]⟩
  · simp only [runContext]
    split <;> omega
  · simp only [runContext]
    split <;> simp_all
  · simp only [runContext]
    split <;> simp_all

/-- C9: the delivered run-result context's `lastID` is a number exactly
when the engine-reported rowid is nonzero; when the rowid is zero the field
is absent, and in no case does the context carry the number 0 as `lastID`. -/
theorem C9_lastID_rowid_zero (r : EngineResult) (c : Nat) :
    (runContext { lastInsertRowid := 0, changes := c }).lastID = none ∧
    (runContext r).lastID.isSome = (r.lastInsertRowid != 0) ∧
    ((runContext r).lastID == some 0) = false := by
  refine ⟨by simp [runContext], ?_, ?_⟩
  · simp only [runContext]
    split <;> simp_all
  · simp only [runContext]
    split <;> simp_all

/-- C2 counterexample: `Database.close` invoked without a completion
routine, on an engine whose close raises, does not re-raise — the exception
is swallowed (nothing is thrown past the call and no routine is invoked),
contradicting the claim that every listed operation re-raises synchronously
when no completion routine was supplied. -/
theorem C2_counterexample :
    Database.close (Except.error "SQLITE_BUSY") false =
      { callbackCall := none, thrown := none } :=
  rfl

/-- C2 (amended): every listed operation that receives a completion routine
routes an engine exception through it as the first argument and never
throws past the call; without a completion routine, `run`, `get`, `all`,
`exec` and `prepare` re-raise synchronously, while `each` (at both levels),
`close` and `finalize` swallow the exception — nothing is thrown and no
routine is invoked. -/
theorem C2_error_routing (e : Err) (r : EngineResult) (row : Option Row)
    (rs : List Row) (p : ParamsInput) (st : StatementState)
    (args : List JSValue) :
    Database.run p (Except.error e) (fun _ => Except.ok r) true =
      { finalized := false, callbackCall := some (.failure e),
        returned := none, thrown := none } ∧
    Database.run p (Except.ok ()) (fun _ => Except.error e) true =
      { finalized := false, callbackCall := some (.failure e),
        returned := none, thrown := none } ∧
    Database.run p (Except.error e) (fun _ => Except.ok r) false =
      { finalized := false, callbackCall := none,
        returned := none, thrown := some e } ∧
    Database.run p (Except.ok ()) (fun _ => Except.error e) false =
      { finalized := false, callbackCall := none,
        returned := none, thrown := some e } ∧
    Database.get p (Except.error e) (fun _ => Except.ok row) true =
      { finalized := false, callbackCall := some (.error e),
        returned := none, thrown := none } ∧
    Database.get p (Except.ok ()) (fun _ => Except.error e) true =
      { finalized := false, callbackCall := some (.error e),
        returned := none, thrown := none } ∧
    Database.get p (Except.ok ()) (fun _ => Except.error e) false =
      { finalized := false, callbackCall := none,
        returned := none, thrown := some e } ∧
    Database.all p (Except.error e) (fun _ => Except.ok rs) true =
      { finalized := false, callbackCall := some (.error e),
        returned := none, thrown := none } ∧
    Database.all p (Except.ok ()) (fun _ => Except.error e) true =
      { finalized := false, callbackCall := some (.error e),
        returned := none, thrown := none } ∧
    Database.all p (Except.ok ()) (fun _ => Except.error e) false =
      { finalized := false, callbackCall := none,
        returned := none, thrown := some e } ∧
    Database.each p (Except.ok ()) (fun _ => Except.error e) true true =
      { finalized := false, rowCalls := [.error e],
        completeCalls := [.error e], thrown := none } ∧
    Database.each p (Except.ok ()) (fun _ => Except.error e) false false =
      { finalized := false, rowCalls := [], completeCalls := [],
        thrown := none } ∧
    Database.exec (Except.error e) true =
      { callbackCall := some (some e), thrown := none } ∧
    Database.exec (Except.error e) false =
      { callbackCall := none, thrown := some e } ∧
    Database.prepare (Except.error e) none true =
      { stmt := none, callbackCall := some (some e), thrown := none } ∧
    Database.prepare (Except.error e) none false =
      { stmt := none, callbackCall := none, thrown := some e } ∧
    Database.close (Except.error e) true =
      { callbackCall := some (some e), thrown := none } ∧
    Database.close (Except.error e) false =
      { callbackCall := none, thrown := none } ∧
    (Statement.run st args (fun _ => Except.error e) true).callbackCall =
      some (.failure e) ∧
    (Statement.run st args (fun _ => Except.error e) true).thrown = none ∧
    (Statement.run st args (fun _ => Except.error e) false).thrown = some e ∧
    (Statement.get st args (fun _ => Except.error e) true).callbackCall =
      some (.error e) ∧
    (Statement.get st args (fun _ => Except.error e) true).thrown = none ∧
    (Statement.get st args (fun _ => Except.error e) false).thrown = some e ∧
    (Statement.all st args (fun _ => Except.error e) true).callbackCall =
      some (.error e) ∧
    (Statement.all st args (fun _ => Except.error e) true).thrown = none ∧
    (Statement.all st args (fun _ => Except.error e) false).thrown = some e ∧
    (Statement.each st args (fun _ => Except.error e) true true).rowCalls =
      [.error e] ∧
    (Statement.each st args (fun _ => Except.error e) true true).completeCalls =
      [.error e] ∧
    (Statement.each st args (fun _ => Except.error e) false false).thrown = none ∧
    Statement.finalize (Except.error e) true =
      { callbackCall := some (some e), thrown := none } ∧
    Statement.finalize (Except.error e) false =
      { callbackCall := none, thrown := none } :=
  ⟨rfl, rfl, rfl, rfl, rfl, rfl, rfl, rfl, rfl, rfl, rfl, rfl, rfl, rfl, rfl,
   rfl, rfl, rfl, rfl, rfl, rfl, rfl, rfl, rfl, rfl, rfl, rfl, rfl, rfl, rfl,
   rfl, rfl⟩

/-- C5 counterexample: a one-shot `Database.run` whose engine-level execute
raises skips the `stmt.finalize()` line — the internally prepared statement
is not released, contradicting the claim that it is released regardless of
outcome. -/
theorem C5_counterexample :
    (Database.run (.array []) (Except.ok ())
      (fun _ => Except.error "SQLITE_CONSTRAINT") false).finalized = false :=
  rfl

/-- C5 (amended): each one-shot `Database`-level call releases its
internally prepared statement on the success path, but when execution
against the engine raises, the catch path skips `stmt.finalize()` and the
statement is not released. -/
theorem C5_one_shot_release (p : ParamsInput) (e : Err) (r : EngineResult)
    (row : Option Row) (rs : List Row) (cb rcb ccb : Bool) :
    (Database.run p (Except.ok ()) (fun _ => Except.ok r) cb).finalized = true ∧
    (Database.get p (Except.ok ()) (fun _ => Except.ok row) cb).finalized = true ∧
    (Database.all p (Except.ok ()) (fun _ => Except.ok rs) cb).finalized = true ∧
    (Database.each p (Except.ok ()) (fun _ => Except.ok rs) rcb ccb).finalized = true ∧
    (Database.run p (Except.ok ()) (fun _ => Except.error e) cb).finalized = false ∧
    (Database.get p (Except.ok ()) (fun _ => Except.error e) cb).finalized = false ∧
    (Database.all p (Except.ok ()) (fun _ => Except.error e) cb).finalized = false ∧
    (Database.each p (Except.ok ()) (fun _ => Except.error e) rcb ccb).finalized = false :=
  ⟨rfl, rfl, rfl, rfl, rfl, rfl, rfl, rfl⟩

/-- C4 counterexample: a parameter list supplied to `Database.prepare` is
discarded — the returned statement's `boundParams` is unset, unlike the
state `bind` would produce, and a following parameterless execute hands the
engine the empty parameter list instead of the supplied one. -/
theorem C4_counterexample :
    (Database.prepare (Except.ok ()) (some [JSValue.num 42]) false).stmt =
      some { boundParams := none } ∧
    (Statement.bind { boundParams := none } [JSValue.num 42]).boundParams =
      some [JSValue.num 42] ∧
    (Statement.run { boundParams := none } []
      (fun _ => Except.ok { lastInsertRowid := 1, changes := 1 }) false).engineArgs = [] ∧
    (Statement.run { boundParams := some [JSValue.num 42] } []
      (fun _ => Except.ok { lastInsertRowid := 1, changes := 1 }) false).engineArgs =
      [JSValue.num 42] :=
  ⟨rfl, rfl, rfl, rfl⟩

/-- C4 (amended): `Database.prepare` accepts an optional parameter list in
its signature only for the trailing-callback shuffle and never binds it:
whatever parameter list is supplied, the returned statement has no
pre-bound parameters, so a following parameterless execute-style call
resolves to the empty list; parameters become pre-bound only through an
explicit `bind` call, which stores exactly the supplied list. -/
theorem C4_prepare_ignores_params (params : Option (List JSValue))
    (qs : List JSValue) (cb : Bool) :
    (Database.prepare (Except.ok ()) params cb).stmt =
      some { boundParams := none } ∧
    resolveParams { boundParams := none } [] = [] ∧
    (Statement.bind { boundParams := none } qs).boundParams = some qs :=
  ⟨rfl, rfl, rfl⟩

/-- Helper: `Statement.run` never writes `boundParams`. -/
theorem Statement.run_state (st : StatementState) (args : List JSValue)
    (ex : List JSValue → Except Err EngineResult) (cb : Bool) :
    (Statement.run st args ex cb).state = st := by
  cases hx : ex (normalizeParams (.array (resolveParams st args))) <;>
    simp [Statement.run, hx]

/-- Helper: `Statement.get` never writes `boundParams`. -/
theorem Statement.get_state (st : StatementState) (args : List JSValue)
    (ex : List JSValue → Except Err (Option Row)) (cb : Bool) :
    (Statement.get st args ex cb).state = st := by
  cases hx : ex (normalizeParams (.array (resolveParams st args))) <;>
    simp [Statement.get, hx]

/-- Helper: `Statement.all` never writes `boundParams`. -/
theorem Statement.all_state (st : StatementState) (args : List JSValue)
    (ex : List JSValue → Except Err (List Row)) (cb : Bool) :
    (Statement.all st args ex cb).state = st := by
  cases hx : ex (normalizeParams (.array (resolveParams st args))) <;>
    simp [Statement.all, hx]

/-- Helper: `Statement.each` never writes `boundParams`. -/
theorem Statement.each_state (st : StatementState) (args : List JSValue)
    (ex : List JSValue → Except Err (List Row)) (rcb ccb : Bool) :
    (Statement.each st args ex rcb ccb).state = st := by
  cases hx : ex (normalizeParams (.array (resolveParams st args))) <;>
    simp [Statement.each, hx]

/-- Helper: the parameters `Statement.run` hands the engine are the
normalization of the resolved parameter list. -/
theorem Statement.run_engineArgs (st : StatementState) (args : List JSValue)
    (ex : List JSValue → Except Err EngineResult) (cb : Bool) :
    (Statement.run st args ex cb).engineArgs =
      normalizeParams (.array (resolveParams st args)) := by
  cases hx : ex (normalizeParams (.array (resolveParams st args))) <;>
    simp [Statement.run, hx]

/-- C6: for both `Database.each` and `Statement.each` on a result set, the
per-row completion routine is invoked exactly once per record the
equivalent `all` call returns, carrying those records in the same order,
and the final completion routine is then invoked once with a count equal to
the number of per-row invocations. -/
theorem C6_each_matches_all (p : ParamsInput) (st : StatementState)
    (args : List JSValue) (rs : List Row) :
    (Database.each p (Except.ok ()) (fun _ => Except.ok rs) true true).rowCalls =
      ((Database.all p (Except.ok ()) (fun _ => Except.ok rs) true).returned.getD []).map
        Except.ok ∧
    (Database.each p (Except.ok ()) (fun _ => Except.ok rs) true true).completeCalls =
      [Except.ok
        ((Database.each p (Except.ok ()) (fun _ => Except.ok rs) true true).rowCalls.length)] ∧
    (Database.each p (Except.ok ()) (fun _ => Except.ok rs) true true).rowCalls.length =
      rs.length ∧
    (Statement.each st args (fun _ => Except.ok rs) true true).rowCalls =
      ((Statement.all st args (fun _ => Except.ok rs) true).returned.getD []).map
        Except.ok ∧
    (Statement.each st args (fun _ => Except.ok rs) true true).completeCalls =
      [Except.ok
        ((Statement.each st args (fun _ => Except.ok rs) true true).rowCalls.length)] := by
  refine ⟨rfl, ?_, by simp [Database.each], rfl, ?_⟩ <;>
    simp [Database.each, Statement.each]

/-- C7: constructing a `Database` with a completion routine delivers the
open result — success or failure — through a call queued for the next
scheduling turn (never re-entrantly within the constructor) and throws
nothing; constructing without a completion routine throws synchronously
exactly when opening fails. -/
theorem C7_constructor_contract (openResult : Except Err Unit) (e : Err) :
    (Database.constructor openResult true).thrown = none ∧
    (Database.constructor openResult true).calls.all (fun c => c.deferred) = true ∧
    (Database.constructor (Except.ok ()) true).calls =
      [{ deferred := true, arg := none }] ∧
    (Database.constructor (Except.error e) true).calls =
      [{ deferred := true, arg := some e }] ∧
    (Database.constructor (Except.error e) false).thrown = some e ∧
    (Database.constructor (Except.error e) false).calls = [] ∧
    (Database.constructor (Except.ok ()) false).thrown = none := by
  refine ⟨?_, ?_, rfl, rfl, rfl, rfl, rfl⟩ <;> cases openResult <;> rfl

/-- C10: the execute-style statement operations `run`, `get`, `all` and
`each` leave the stored bound-parameter list untouched; a parameterless
execute on a statement with a bound list resolves to that list, and running
again from the resulting state resolves to the identical parameters; only a
`bind` call replaces the stored list. -/
theorem C10_bound_params_frame (st : StatementState) (args : List JSValue)
    (ps qs : List JSValue) (exR : List JSValue → Except Err EngineResult)
    (exG : List JSValue → Except Err (Option Row))
    (exA : List JSValue → Except Err (List Row)) (cb rcb ccb : Bool) :
    (Statement.run st args exR cb).state = st ∧
    (Statement.get st args exG cb).state = st ∧
    (Statement.all st args exA cb).state = st ∧
    (Statement.each st args exA rcb ccb).state = st ∧
    (Statement.run { boundParams := some ps } [] exR cb).engineArgs =
      normalizeParams (.array ps) ∧
    (Statement.run ((Statement.run { boundParams := some ps } [] exR cb).state)
        [] exR cb).engineArgs =
      (Statement.run { boundParams := some ps } [] exR cb).engineArgs ∧
    (Statement.bind st qs).boundParams = some qs := by
  refine ⟨Statement.run_state .., Statement.get_state .., Statement.all_state ..,
    Statement.each_state .., ?_, ?_, rfl⟩
  · rw [Statement.run_engineArgs]
    rfl
  · rw [Statement.run_state]
